import Mathlib

/-!
Verification development for the provider configuration resolution subsystem
(`src/agent/src/lib/llm/settings/NemoTypes.ts`: the zod schemas and the
`LLMSettingsReader` class).

The embedding is shallow: zod schemas become `Except`-valued parse functions
over typed raw inputs, the two backing stores become explicit inductive
descriptions of what a read observes, and the reader's async methods become
total functions of the environment, the process-wide mock state and the two
store observations.  JavaScript numbers are modelled as rationals plus an
explicit `nan` value; `parseInt`/`parseFloat` are modelled on decimal
numerals (sign, digits, fraction, exponent), with `nan` for a prefix that
holds no digits.
-/

/-- A JavaScript number: a finite value (modelled as a rational) or `NaN`. -/
inductive JSNum where
  | num (q : ℚ)
  | nan
  deriving DecidableEq, Repr

/-- Numeric value of a list of decimal digit characters (most significant first). -/
def natOfDigits (ds : List Char) : ℕ :=
  ds.foldl (fun n c => 10 * n + (c.toNat - 48)) 0

/-- `10 ^ n` as a rational, computed on naturals. -/
def pow10 (n : ℕ) : ℚ := ((10 ^ n : ℕ) : ℚ)

/-- Value of a list of fractional digit characters: `"15"` denotes `0.15`. -/
def fracOfDigits (ds : List Char) : ℚ :=
  (natOfDigits ds : ℚ) / pow10 ds.length

/-- Model of JavaScript `parseInt(s, 10)`: skip leading whitespace, optional
sign, then the longest prefix of decimal digits; `NaN` when that prefix is
empty. -/
def parseInt10 (s : String) : JSNum :=
  let cs := s.data.dropWhile Char.isWhitespace
  let signAndRest : ℤ × List Char :=
    match cs with
    | '-' :: rest => (-1, rest)
    | '+' :: rest => (1, rest)
    | _ => (1, cs)
  let ds := signAndRest.2.takeWhile Char.isDigit
  if ds.isEmpty then .nan
  else .num ((signAndRest.1 * (natOfDigits ds : ℤ) : ℤ) : ℚ)

/-- Model of JavaScript `parseFloat(s)`: skip leading whitespace, optional
sign, decimal digits with an optional fraction and an optional exponent,
longest valid prefix; `NaN` when no digit occurs before the exponent. -/
def parseFloat (s : String) : JSNum :=
  let cs := s.data.dropWhile Char.isWhitespace
  let signAndRest : ℚ × List Char :=
    match cs with
    | '-' :: rest => (-1, rest)
    | '+' :: rest => (1, rest)
    | _ => (1, cs)
  let ip := signAndRest.2.takeWhile Char.isDigit
  let afterInt := signAndRest.2.dropWhile Char.isDigit
  let fp : List Char × List Char :=
    match afterInt with
    | '.' :: rest => (rest.takeWhile Char.isDigit, rest.dropWhile Char.isDigit)
    | _ => ([], afterInt)
  if ip.isEmpty ∧ fp.1.isEmpty then .nan
  else
    let mantissa : ℚ := signAndRest.1 * ((natOfDigits ip : ℚ) + fracOfDigits fp.1)
    match fp.2 with
    | 'e' :: rest | 'E' :: rest =>
      let expSignAndRest : Bool × List Char :=
        match rest with
        | '-' :: ds => (true, ds)
        | '+' :: ds => (false, ds)
        | _ => (false, rest)
      let eds := expSignAndRest.1 |> fun neg =>
        (neg, expSignAndRest.2.takeWhile Char.isDigit)
      if eds.2.isEmpty then .num mantissa
      else if eds.1 then .num (mantissa / pow10 (natOfDigits eds.2))
      else .num (mantissa * pow10 (natOfDigits eds.2))
    | _ => .num mantissa

/-- `NemoProviderTypeSchema`: the closed provider-type enumeration. -/
inductive NemoProviderType where
  | nemo
  | openai
  | openai_compatible
  | anthropic
  | google_gemini
  | ollama
  | openrouter
  | custom
  deriving DecidableEq, Repr

/-- Parse of `NemoProviderTypeSchema` on a raw string (zod enum membership). -/
def NemoProviderTypeSchema_parse (s : String) : Except String NemoProviderType :=
  if s = "nemo" then .ok .nemo
  else if s = "openai" then .ok .openai
  else if s = "openai_compatible" then .ok .openai_compatible
  else if s = "anthropic" then .ok .anthropic
  else if s = "google_gemini" then .ok .google_gemini
  else if s = "ollama" then .ok .ollama
  else if s = "openrouter" then .ok .openrouter
  else if s = "custom" then .ok .custom
  else .error "Invalid enum value"

/-- `ProviderCapabilitiesSchema`: one optional boolean flag. -/
structure ProviderCapabilities where
  supportsImages : Option Bool
  deriving DecidableEq, Repr

/-- A raw value that is either a string or a JavaScript number, as accepted by
`z.union([z.number(), z.string()])`. -/
inductive StrOrNum where
  | s (v : String)
  | n (v : JSNum)
  deriving DecidableEq, Repr

/-- Raw (pre-validation) shape of a `modelConfig` object: each field is
absent, a string, or a number. -/
structure RawModelConfig where
  contextWindow : Option StrOrNum
  temperature : Option StrOrNum
  deriving DecidableEq, Repr

/-- Validated `ModelConfig`.  `contextWindow` is the raw transform output —
a JavaScript number that may be `NaN`, since the schema applies no check
after `parseInt`; `temperature` passed `z.number().min(0).max(2)`, so it is
a genuine rational. -/
structure ModelConfig where
  contextWindow : Option JSNum
  temperature : Option ℚ
  deriving DecidableEq, Repr

/-- The `contextWindow` field of `ModelConfigSchema`:
`z.union([z.number(), z.string()]).transform(parseInt).optional()`.
The union rejects a native `NaN` (zod's `z.number()` refuses `NaN`), a string
is converted with `parseInt` — and the transform output is **not** checked. -/
def contextWindowField : Option StrOrNum → Except String (Option JSNum)
  | none => .ok none
  | some (.n .nan) => .error "Expected number, received nan"
  | some (.n (.num q)) => .ok (some (.num q))
  | some (.s str) => .ok (some (parseInt10 str))

/-- The `temperature` field of `ModelConfigSchema`:
`z.union([z.number(), z.string()]).transform(parseFloat).pipe(z.number().min(0).max(2)).optional()`.
After coercion the pipe rejects `NaN` and everything outside `[0, 2]`. -/
def temperatureField : Option StrOrNum → Except String (Option ℚ)
  | none => .ok none
  | some (.n .nan) => .error "Expected number, received nan"
  | some (.n (.num q)) =>
    if q < 0 then .error "Number must be greater than or equal to 0"
    else if 2 < q then .error "Number must be less than or equal to 2"
    else .ok (some q)
  | some (.s str) =>
    match parseFloat str with
    | .nan => .error "Expected number, received nan"
    | .num q =>
      if q < 0 then .error "Number must be greater than or equal to 0"
      else if 2 < q then .error "Number must be less than or equal to 2"
      else .ok (some q)

/-- Parse of `ModelConfigSchema` on a raw model-config object. -/
def ModelConfigSchema_parse (raw : RawModelConfig) : Except String ModelConfig :=
  match contextWindowField raw.contextWindow with
  | .error e => .error e
  | .ok cw =>
    match temperatureField raw.temperature with
    | .error e => .error e
    | .ok tp => .ok { contextWindow := cw, temperature := tp }

/-- Raw (pre-validation) shape of one provider entry, at the typed-skeleton
level: primitive fields carry their JSON types, `type` is an arbitrary string
and `modelConfig` is raw. -/
structure RawNemoProvider where
  id : String
  name : String
  type : String
  isDefault : Bool
  isBuiltIn : Bool
  baseUrl : Option String
  apiKey : Option String
  modelId : Option String
  capabilities : Option ProviderCapabilities
  modelConfig : Option RawModelConfig
  createdAt : String
  updatedAt : String
  deriving DecidableEq, Repr

/-- Validated provider record (`NemoProvider`). -/
structure NemoProvider where
  id : String
  name : String
  type : NemoProviderType
  isDefault : Bool
  isBuiltIn : Bool
  baseUrl : Option String
  apiKey : Option String
  modelId : Option String
  capabilities : Option ProviderCapabilities
  modelConfig : Option ModelConfig
  createdAt : String
  updatedAt : String
  deriving DecidableEq, Repr

/-- Parse of `NemoProviderSchema` on one raw provider entry. -/
def NemoProviderSchema_parse (r : RawNemoProvider) : Except String NemoProvider :=
  match NemoProviderTypeSchema_parse r.type with
  | .error e => .error e
  | .ok ty =>
    match (match r.modelConfig with
           | none => Except.ok none
           | some m => (ModelConfigSchema_parse m).map some) with
    | .error e => .error e
    | .ok mc =>
      .ok { id := r.id, name := r.name, type := ty, isDefault := r.isDefault,
            isBuiltIn := r.isBuiltIn, baseUrl := r.baseUrl, apiKey := r.apiKey,
            modelId := r.modelId, capabilities := r.capabilities,
            modelConfig := mc, createdAt := r.createdAt, updatedAt := r.updatedAt }

/-- Raw (pre-validation) shape of a persisted providers configuration. -/
structure RawNemoProvidersConfig where
  defaultProviderId : String
  providers : List RawNemoProvider
  deriving DecidableEq, Repr

/-- Validated providers configuration (`NemoProvidersConfig`). -/
structure NemoProvidersConfig where
  defaultProviderId : String
  providers : List NemoProvider
  deriving DecidableEq, Repr

/-- Elementwise parse of `z.array(NemoProviderSchema)`: the first failing
entry fails the whole array; no cross-entry condition is checked. -/
def parseProvidersList : List RawNemoProvider → Except String (List NemoProvider)
  | [] => .ok []
  | r :: rs =>
    match NemoProviderSchema_parse r with
    | .error e => .error e
    | .ok p =>
      match parseProvidersList rs with
      | .error e => .error e
      | .ok ps => .ok (p :: ps)

/-- Parse of `NemoProvidersConfigSchema` on a raw persisted configuration. -/
def NemoProvidersConfigSchema_parse (raw : RawNemoProvidersConfig) :
    Except String NemoProvidersConfig :=
  match parseProvidersList raw.providers with
  | .error e => .error e
  | .ok ps => .ok { defaultProviderId := raw.defaultProviderId, providers := ps }

/-- Whether an `Except` result is a success. -/
def exIsOk {ε α : Type} : Except ε α → Bool
  | .ok _ => true
  | .error _ => false

/-- Process environment as the reader observes it: the development-mode
switch `isMockLLMSettings()` (an explicit external flag, per the config
module), the `process.env` variables the mock factory consults, and the
value `new Date().toISOString()` yields during the call. -/
structure Env where
  isMockLLMSettings : Bool
  MOCK_PROVIDER_TYPE : Option String
  OPENAI_API_KEY : Option String
  ANTHROPIC_API_KEY : Option String
  GOOGLE_API_KEY : Option String
  nowISO : String
  deriving DecidableEq, Repr

/-- The reader's process-wide mutable state: the `mockProvider` static field. -/
structure ReaderState where
  mockProvider : Option NemoProvider
  deriving DecidableEq, Repr

/-- JavaScript `v || d` on an optional string: `undefined` and `""` are falsy. -/
def jsOrElse (v : Option String) (d : String) : String :=
  match v with
  | none => d
  | some s => if s = "" then d else s

/-- What one call observes of the primary structured preference API
(`chrome.browserOS.getPref`): the capability may be absent, report a host
error (`chrome.runtime.lastError`), hold no value, or hold a JSON string.
A held string is represented by its parse outcome: `none` when `JSON.parse`
throws, otherwise the raw configuration value it denotes. -/
inductive NemoPref where
  | unavailable
  | hostError
  | noValue
  | value (v : Option RawNemoProvidersConfig)
  deriving DecidableEq, Repr

/-- What one call observes of the fallback key-value store
(`chrome.storage.local`) under the well-known key: no value, a stored JSON
string (again represented by its parse outcome, `none` when `JSON.parse`
throws), or an already-structured stored object. -/
inductive LocalStore where
  | empty
  | str (v : Option RawNemoProvidersConfig)
  | obj (c : RawNemoProvidersConfig)
  deriving DecidableEq, Repr

namespace LLMSettingsReader

/-- `getDefaultNemoProvider`: the built-in always-valid provider. -/
def getDefaultNemoProvider (env : Env) : NemoProvider :=
  { id := "nemo", name := "Nemo", type := .nemo, isDefault := true,
    isBuiltIn := true, baseUrl := none, apiKey := none, modelId := none,
    capabilities := none, modelConfig := none,
    createdAt := env.nowISO, updatedAt := env.nowISO }

/-- The catalog entry `mockProviders.openai`. -/
def mockOpenAI (env : Env) : NemoProvider :=
  { id := "mock_openai", name := "Mock OpenAI", type := .openai,
    isDefault := true, isBuiltIn := false,
    baseUrl := some "https://api.openai.com/v1",
    apiKey := some (jsOrElse env.OPENAI_API_KEY "mock-key"),
    modelId := some "gpt-4o",
    capabilities := some { supportsImages := some true },
    modelConfig := some { contextWindow := some (.num 128000),
                          temperature := some (7 / 10) },
    createdAt := env.nowISO, updatedAt := env.nowISO }

/-- The catalog entry `mockProviders.anthropic`. -/
def mockAnthropic (env : Env) : NemoProvider :=
  { id := "mock_anthropic", name := "Mock Anthropic", type := .anthropic,
    isDefault := true, isBuiltIn := false,
    baseUrl := some "https://api.anthropic.com",
    apiKey := some (jsOrElse env.ANTHROPIC_API_KEY "mock-key"),
    modelId := some "claude-3-5-sonnet-latest",
    capabilities := some { supportsImages := some true },
    modelConfig := some { contextWindow := some (.num 200000),
                          temperature := some (7 / 10) },
    createdAt := env.nowISO, updatedAt := env.nowISO }

/-- The catalog entry `mockProviders.gemini` (provider type `google_gemini`,
catalog key `gemini`). -/
def mockGemini (env : Env) : NemoProvider :=
  { id := "mock_gemini", name := "Mock Gemini", type := .google_gemini,
    isDefault := true, isBuiltIn := false,
    baseUrl := none,
    apiKey := some (jsOrElse env.GOOGLE_API_KEY "mock-key"),
    modelId := some "gemini-2.0-flash",
    capabilities := some { supportsImages := some true },
    modelConfig := some { contextWindow := some (.num 1000000),
                          temperature := some (7 / 10) },
    createdAt := env.nowISO, updatedAt := env.nowISO }

/-- The catalog entry `mockProviders.ollama`. -/
def mockOllama (env : Env) : NemoProvider :=
  { id := "mock_ollama", name := "Mock Ollama", type := .ollama,
    isDefault := true, isBuiltIn := false,
    baseUrl := some "http://localhost:11434",
    apiKey := none,
    modelId := some "qwen3:4b",
    capabilities := some { supportsImages := some false },
    modelConfig := some { contextWindow := some (.num 4096),
                          temperature := some (7 / 10) },
    createdAt := env.nowISO, updatedAt := env.nowISO }

/-- The property names of `Object.prototype`.  A plain object literal with
no own entry under one of these names still yields the inherited member
when indexed — a truthy, non-provider value (a method, or the
`Object.prototype` object itself for `__proto__`). -/
def objectProtoKeys : List String :=
  ["constructor", "hasOwnProperty", "isPrototypeOf", "propertyIsEnumerable",
   "toLocaleString", "toString", "valueOf", "__defineGetter__",
   "__defineSetter__", "__lookupGetter__", "__lookupSetter__", "__proto__"]

/-- A JavaScript value arising from the mock-catalog lookup: a provider
record, a truthy member inherited from `Object.prototype` (not a provider),
or `undefined`. -/
inductive MockLookup where
  | value (p : NemoProvider)
  | protoProperty (name : String)
  | undefinedVal
  deriving DecidableEq, Repr

/-- The JavaScript property read `mockProviders[mockType]` on the object
literal of the source: the five own keys yield their catalog entries, a
name found on `Object.prototype` yields the inherited member, and any
other name yields `undefined`. -/
def mockProvidersGet (env : Env) (key : String) : MockLookup :=
  if key = "nemo" then .value (getDefaultNemoProvider env)
  else if key = "openai" then .value (mockOpenAI env)
  else if key = "anthropic" then .value (mockAnthropic env)
  else if key = "gemini" then .value (mockGemini env)
  else if key = "ollama" then .value (mockOllama env)
  else if key ∈ objectProtoKeys then .protoProperty key
  else .undefinedVal

/-- `getMockProvider` as the program executes it: a pre-set override wins;
otherwise `mockProviders[mockType] || this.getDefaultNemoProvider()`, where
the `||` replaces only a falsy (`undefined`) lookup result — a truthy
member inherited from `Object.prototype` is returned as-is even though it
is not a provider. -/
def getMockProviderValue (env : Env) (st : ReaderState) : MockLookup :=
  match st.mockProvider with
  | some p => .value p
  | none =>
    match mockProvidersGet env (jsOrElse env.MOCK_PROVIDER_TYPE "nemo") with
    | .undefinedVal => .value (getDefaultNemoProvider env)
    | v => v

/-- The mock factory at its declared TypeScript type (`NemoProvider`),
as the rest of the reader consumes it: the provider `getMockProviderValue`
yields; in the prototype-leak corner, where the program returns a
non-provider `Object.prototype` member (see `getMockProviderValue`), this
provider-typed view substitutes the built-in default. -/
def getMockProvider (env : Env) (st : ReaderState) : NemoProvider :=
  match getMockProviderValue env st with
  | .value p => p
  | _ => getDefaultNemoProvider env

/-- A `Partial<NemoProvider>` argument: each field is either absent from the
object (outer `none`) or present with the given value. -/
structure NemoProviderPatch where
  id : Option String := none
  name : Option String := none
  type : Option NemoProviderType := none
  isDefault : Option Bool := none
  isBuiltIn : Option Bool := none
  baseUrl : Option (Option String) := none
  apiKey : Option (Option String) := none
  modelId : Option (Option String) := none
  capabilities : Option (Option ProviderCapabilities) := none
  modelConfig : Option (Option ModelConfig) := none
  createdAt : Option String := none
  updatedAt : Option String := none
  deriving DecidableEq, Repr

/-- JavaScript object spread `{...base, ...p}`: a key present in `p`
overrides the base. -/
def spreadMerge (base : NemoProvider) (p : NemoProviderPatch) : NemoProvider :=
  { id := p.id.getD base.id, name := p.name.getD base.name,
    type := p.type.getD base.type, isDefault := p.isDefault.getD base.isDefault,
    isBuiltIn := p.isBuiltIn.getD base.isBuiltIn,
    baseUrl := p.baseUrl.getD base.baseUrl, apiKey := p.apiKey.getD base.apiKey,
    modelId := p.modelId.getD base.modelId,
    capabilities := p.capabilities.getD base.capabilities,
    modelConfig := p.modelConfig.getD base.modelConfig,
    createdAt := p.createdAt.getD base.createdAt,
    updatedAt := p.updatedAt.getD base.updatedAt }

/-- `setMockProvider`: outside development mode it only logs and returns;
in development mode it stores the patch merged over the built-in default. -/
def setMockProvider (env : Env) (st : ReaderState) (p : NemoProviderPatch) :
    ReaderState :=
  if env.isMockLLMSettings then
    { mockProvider := some (spreadMerge (getDefaultNemoProvider env) p) }
  else st

/-- `readFromNemo`: the default-provider read.  With the primary capability
absent, the fallback store is tried, any failure there yielding the mock in
development mode and `null` otherwise, and a parsed configuration yielding
`providers.find(p => p.id === defaultProviderId) || null` without
normalization.  With the capability present, a host error, a missing value,
a JSON parse failure or a schema failure each yield `null`; a parsed
configuration is normalized (`isDefault := id === defaultProviderId`) and
searched for the default provider. -/
def readFromNemo (env : Env) (st : ReaderState) (pref : NemoPref)
    (store : LocalStore) : Option NemoProvider :=
  match pref with
  | .unavailable =>
    match store with
    | .empty =>
      if env.isMockLLMSettings then some (getMockProvider env st) else none
    | .str none =>
      if env.isMockLLMSettings then some (getMockProvider env st) else none
    | .str (some raw) =>
      match NemoProvidersConfigSchema_parse raw with
      | .error _ =>
        if env.isMockLLMSettings then some (getMockProvider env st) else none
      | .ok config =>
        config.providers.find? (fun p => p.id == config.defaultProviderId)
    | .obj raw =>
      match NemoProvidersConfigSchema_parse raw with
      | .error _ =>
        if env.isMockLLMSettings then some (getMockProvider env st) else none
      | .ok config =>
        config.providers.find? (fun p => p.id == config.defaultProviderId)
  | .hostError => none
  | .noValue => none
  | .value none => none
  | .value (some raw) =>
    match NemoProvidersConfigSchema_parse raw with
    | .error _ => none
    | .ok config =>
      let providers := config.providers.map
        (fun p => { p with isDefault := p.id == config.defaultProviderId })
      providers.find? (fun p => p.id == config.defaultProviderId)

/-- `read` (`readDefaultProvider()` of the spec): the provider found by
`readFromNemo`, or the built-in default when that read yields nothing or
fails. -/
def read (env : Env) (st : ReaderState) (pref : NemoPref) (store : LocalStore) :
    NemoProvider :=
  (readFromNemo env st pref store).getD (getDefaultNemoProvider env)

/-- `readProvidersConfig`: the full-configuration read.  With the primary
capability absent, the fallback store's value is parsed and returned
**without** normalization (`catch` yields `null`).  With the capability
present, a parsed configuration has its `isDefault` flags recomputed from
`defaultProviderId`; every failure yields `null`. -/
def readProvidersConfig (pref : NemoPref) (store : LocalStore) :
    Option NemoProvidersConfig :=
  match pref with
  | .unavailable =>
    match store with
    | .empty => none
    | .str none => none
    | .str (some raw) => (NemoProvidersConfigSchema_parse raw).toOption
    | .obj raw => (NemoProvidersConfigSchema_parse raw).toOption
  | .hostError => none
  | .noValue => none
  | .value none => none
  | .value (some raw) =>
    match NemoProvidersConfigSchema_parse raw with
    | .error _ => none
    | .ok config =>
      some { config with
             providers := config.providers.map
               (fun p => { p with isDefault := p.id == config.defaultProviderId }) }

/-- `readAllProviders()`: the parsed configuration, or the synthetic
single-provider configuration around the built-in default. -/
def readAllProviders (env : Env) (pref : NemoPref) (store : LocalStore) :
    NemoProvidersConfig :=
  (readProvidersConfig pref store).getD
    { defaultProviderId := "nemo", providers := [getDefaultNemoProvider env] }

end LLMSettingsReader

/-- A production-mode environment: development switch off, no environment
overrides. -/
def envProd : Env :=
  { isMockLLMSettings := false, MOCK_PROVIDER_TYPE := none,
    OPENAI_API_KEY := none, ANTHROPIC_API_KEY := none, GOOGLE_API_KEY := none,
    nowISO := "2025-01-01T00:00:00.000Z" }

/-- A development-mode environment with no mock-type hint. -/
def envDev : Env := { envProd with isMockLLMSettings := true }

/-- A development-mode environment selecting the `openai` catalog entry. -/
def envDevOpenAI : Env :=
  { envProd with isMockLLMSettings := true, MOCK_PROVIDER_TYPE := some "openai" }

/-- A development-mode environment whose mock-type hint is the enumeration
member `google_gemini` (which is not a catalog key — the catalog key is
`gemini`). -/
def envGG : Env :=
  { envProd with
    isMockLLMSettings := true
    MOCK_PROVIDER_TYPE := some "google_gemini" }

/-- A development-mode environment whose mock-type hint names the
`Object.prototype` member `toString`. -/
def envToString : Env :=
  { envProd with
    isMockLLMSettings := true
    MOCK_PROVIDER_TYPE := some "toString" }

/-- The reader state at process start: no mock override. -/
def st0 : ReaderState := { mockProvider := none }

/-- A well-formed raw provider entry whose persisted `isDefault` is `false`. -/
def rawProviderA : RawNemoProvider :=
  { id := "a", name := "A", type := "openai", isDefault := false,
    isBuiltIn := false, baseUrl := none, apiKey := some "k",
    modelId := some "gpt-4o", capabilities := none, modelConfig := none,
    createdAt := "2024-01-01T00:00:00.000Z",
    updatedAt := "2024-01-01T00:00:00.000Z" }

/-- The provider `rawProviderA` validates to. -/
def providerA : NemoProvider :=
  { id := "a", name := "A", type := .openai, isDefault := false,
    isBuiltIn := false, baseUrl := none, apiKey := some "k",
    modelId := some "gpt-4o", capabilities := none, modelConfig := none,
    createdAt := "2024-01-01T00:00:00.000Z",
    updatedAt := "2024-01-01T00:00:00.000Z" }

/-- A valid persisted configuration: one provider, `defaultProviderId`
matching it, persisted `isDefault = false`. -/
def rawConfigA : RawNemoProvidersConfig :=
  { defaultProviderId := "a", providers := [rawProviderA] }

/-- The configuration `rawConfigA` validates to (flags as persisted). -/
def cfgA : NemoProvidersConfig :=
  { defaultProviderId := "a", providers := [providerA] }

/-- `rawConfigA` after `isDefault` normalization. -/
def cfgA_norm : NemoProvidersConfig :=
  { defaultProviderId := "a", providers := [{ providerA with isDefault := true }] }

/-- A valid persisted configuration whose `defaultProviderId` matches no
provider. -/
def rawConfigOrphan : RawNemoProvidersConfig :=
  { defaultProviderId := "zzz", providers := [rawProviderA] }

/-- The configuration `rawConfigOrphan` validates to. -/
def cfgOrphan : NemoProvidersConfig :=
  { defaultProviderId := "zzz", providers := [providerA] }

/-- A persisted configuration in which two providers share the id `"a"`. -/
def rawConfigDup : RawNemoProvidersConfig :=
  { defaultProviderId := "a",
    providers := [rawProviderA, { rawProviderA with name := "B" }] }

/-- A persisted configuration that fails schema validation: unknown provider
`type`. -/
def rawConfigBad : RawNemoProvidersConfig :=
  { defaultProviderId := "a",
    providers := [{ rawProviderA with type := "bogus" }] }

/-- The `setMockProvider` argument `{name: "Test", type: "openai"}`. -/
def testPatch : LLMSettingsReader.NemoProviderPatch :=
  { name := some "Test", type := some .openai }

/-- The reader state after `setMockProvider(testPatch)` in development mode. -/
def stTest : ReaderState := LLMSettingsReader.setMockProvider envDev st0 testPatch

open LLMSettingsReader

theorem providerParse_fields (r : RawNemoProvider) (p : NemoProvider)
    (h : NemoProviderSchema_parse r = .ok p) :
    p.id = r.id ∧ p.isDefault = r.isDefault := by
  unfold NemoProviderSchema_parse at h
  split at h
  · exact absurd h (by simp)
  · split at h
    · exact absurd h (by simp)
    · injection h with h
      subst h
      exact ⟨rfl, rfl⟩

theorem parseProvidersList_preserves_isDefault
    (rs : List RawNemoProvider) (ps : List NemoProvider)
    (h : parseProvidersList rs = .ok ps) :
    ps.map (fun p => p.isDefault) = rs.map (fun r => r.isDefault) := by
  induction rs generalizing ps with
  | nil =>
    unfold parseProvidersList at h
    injection h with h
    subst h
    rfl
  | cons r rs ih =>
    unfold parseProvidersList at h
    split at h
    · exact absurd h (by simp)
    · rename_i p hp
      split at h
      · exact absurd h (by simp)
      · rename_i ps' hps
        injection h with h
        subst h
        simp only [List.map_cons]
        rw [(providerParse_fields r p hp).2, ih ps' hps]

theorem parseProvidersList_isOk (rs : List RawNemoProvider) :
    exIsOk (parseProvidersList rs)
      = rs.all (fun r => exIsOk (NemoProviderSchema_parse r)) := by
  induction rs with
  | nil => rfl
  | cons r rs ih =>
    simp only [parseProvidersList, List.all_cons, ← ih]
    cases NemoProviderSchema_parse r with
    | error e => rfl
    | ok p =>
      cases parseProvidersList rs with
      | error e => rfl
      | ok ps => rfl

theorem find?_id_none (d : String) (l : List NemoProvider)
    (h : ∀ p ∈ l, p.id ≠ d) :
    l.find? (fun p => p.id == d) = none := by
  induction l with
  | nil => rfl
  | cons a t ih =>
    have ha : (a.id == d) = false := by
      simp only [beq_eq_false_iff_ne, ne_eq]
      exact h a (List.mem_cons_self a t)
    simp only [List.find?_cons, ha]
    exact ih (fun p hp => h p (List.mem_cons_of_mem a hp))

theorem find?_norm_none (d : String) (l : List NemoProvider)
    (h : ∀ p ∈ l, p.id ≠ d) :
    (l.map (fun p => { p with isDefault := p.id == d })).find?
      (fun p => p.id == d) = none := by
  induction l with
  | nil => rfl
  | cons a t ih =>
    have ha : (({ a with isDefault := a.id == d } : NemoProvider).id == d) = false := by
      simp only [beq_eq_false_iff_ne, ne_eq]
      exact h a (List.mem_cons_self a t)
    simp only [List.map_cons, List.find?_cons, ha]
    exact ih (fun p hp => h p (List.mem_cons_of_mem a hp))

/-- Claim C4 (counterexample): the string `"abc"` fails to parse as a number
(`parseInt` yields `NaN`), yet a `modelConfig` whose `contextWindow` is
`"abc"` passes schema validation — the transform output is never checked, so
the claim "any string that fails to parse as a number makes validation of
that input fail" is false for `contextWindow`. -/
theorem c4_contextWindow_nan_accepted_cex :
    parseInt10 "abc" = JSNum.nan ∧
    ModelConfigSchema_parse { contextWindow := some (.s "abc"), temperature := none }
      = .ok { contextWindow := some JSNum.nan, temperature := none } :=
  ⟨rfl, rfl⟩

/-- Claim C4 (amended): a numeric field given as a string is parsed with the
appropriate numeric parser before any check runs; for `temperature` a string
that fails to parse (coerces to `NaN`) makes validation fail, but for
`contextWindow` the `parseInt` result is accepted unchecked — a failed parse
yields `NaN` inside a successfully validated value. -/
theorem c4_string_coercion_amended (s cw : String)
    (h : parseFloat s = JSNum.nan) :
    (∃ e, ModelConfigSchema_parse
        { contextWindow := none, temperature := some (.s s) } = .error e) ∧
    ModelConfigSchema_parse { contextWindow := some (.s cw), temperature := none }
      = .ok { contextWindow := some (parseInt10 cw), temperature := none } := by
  constructor
  · refine ⟨"Expected number, received nan", ?_⟩
    simp [ModelConfigSchema_parse, contextWindowField, temperatureField, h]
  · rfl

/-- Claim C4 witness: instantiation of the amended theorem at the strings
`"abc"` (temperature) and `"xyz"` (contextWindow). -/
theorem c4_string_coercion_witness :
    parseFloat "abc" = JSNum.nan ∧
    ((∃ e, ModelConfigSchema_parse
        { contextWindow := none, temperature := some (.s "abc") } = .error e) ∧
     ModelConfigSchema_parse { contextWindow := some (.s "xyz"), temperature := none }
       = .ok { contextWindow := some (parseInt10 "xyz"), temperature := none }) :=
  ⟨rfl, c4_string_coercion_amended "abc" "xyz" rfl⟩

/-- Claim C5 (confirmed): a `temperature` of `"1.5"` validates to the number
`1.5`; `"3"` coerces to `3` and fails validation; a numeric temperature
validates exactly when it lies in `[0, 2]`, and an in-range value is returned
unchanged (rejected, never clamped). -/
theorem c5_temperature_range (q : ℚ) :
    ModelConfigSchema_parse { contextWindow := none, temperature := some (.s "1.5") }
      = .ok { contextWindow := none, temperature := some (3 / 2 : ℚ) } ∧
    (∃ e, ModelConfigSchema_parse
        { contextWindow := none, temperature := some (.s "3") } = .error e) ∧
    ((0 ≤ q ∧ q ≤ 2) → ModelConfigSchema_parse
        { contextWindow := none, temperature := some (.n (.num q)) }
        = .ok { contextWindow := none, temperature := some q }) ∧
    (¬(0 ≤ q ∧ q ≤ 2) → ∃ e, ModelConfigSchema_parse
        { contextWindow := none, temperature := some (.n (.num q)) } = .error e) := by
  have h15 : parseFloat "1.5" = .num (3 / 2 : ℚ) := by
    have h0 : parseFloat "1.5"
        = .num ((1 : ℚ) * (((1 : ℕ) : ℚ) + ((5 : ℕ) : ℚ) / pow10 1)) := rfl
    rw [h0]; norm_num [pow10]
  have h3 : parseFloat "3" = .num (3 : ℚ) := by
    have h0 : parseFloat "3"
        = .num ((1 : ℚ) * (((3 : ℕ) : ℚ) + ((0 : ℕ) : ℚ) / pow10 0)) := rfl
    rw [h0]; norm_num [pow10]
  refine ⟨?_, ⟨"Number must be less than or equal to 2", ?_⟩, ?_, ?_⟩
  · simp only [ModelConfigSchema_parse, contextWindowField, temperatureField, h15]
    norm_num
  · simp only [ModelConfigSchema_parse, contextWindowField, temperatureField, h3]
    norm_num
  · rintro ⟨h0, h2⟩
    simp [ModelConfigSchema_parse, contextWindowField, temperatureField,
      not_lt.mpr h0, not_lt.mpr h2]
  · intro hq
    rcases not_and_or.mp hq with h0 | h2
    · have h0' : q < 0 := not_le.mp h0
      refine ⟨"Number must be greater than or equal to 0", ?_⟩
      simp [ModelConfigSchema_parse, contextWindowField, temperatureField, h0']
    · have h2' : (2 : ℚ) < q := not_le.mp h2
      have h0' : ¬ q < 0 := not_lt.mpr (le_trans (by norm_num) (le_of_lt h2'))
      refine ⟨"Number must be less than or equal to 2", ?_⟩
      simp [ModelConfigSchema_parse, contextWindowField, temperatureField, h0', h2']

/-- Claim C5 witness: instantiation at the in-range temperature `1` and the
out-of-range temperature `3`. -/
theorem c5_temperature_range_witness :
    ((0 : ℚ) ≤ 1 ∧ (1 : ℚ) ≤ 2) ∧
    ModelConfigSchema_parse { contextWindow := none, temperature := some (.n (.num 1)) }
      = .ok { contextWindow := none, temperature := some (1 : ℚ) } ∧
    ¬((0 : ℚ) ≤ 3 ∧ (3 : ℚ) ≤ 2) ∧
    (∃ e, ModelConfigSchema_parse
        { contextWindow := none, temperature := some (.n (.num 3)) } = .error e) :=
  ⟨by norm_num, (c5_temperature_range 1).2.2.1 (by norm_num), by norm_num,
   (c5_temperature_range 3).2.2.2 (by norm_num)⟩

theorem configParse_ok_providers (raw : RawNemoProvidersConfig)
    (cfg : NemoProvidersConfig)
    (h : NemoProvidersConfigSchema_parse raw = .ok cfg) :
    parseProvidersList raw.providers = .ok cfg.providers ∧
    cfg.defaultProviderId = raw.defaultProviderId := by
  unfold NemoProvidersConfigSchema_parse at h
  split at h
  · exact absurd h (by simp)
  · rename_i ps hps
    injection h with h
    subst h
    exact ⟨hps, rfl⟩

/-- Claim C1 (counterexample): `rawConfigA` is a valid persisted
configuration (one provider, persisted `isDefault = false`, its id equal to
`defaultProviderId`), yet obtained through the fallback key-value store,
`readAllProviders()` returns it with zero providers carrying
`isDefault = true`: the flags are not recomputed on that path. -/
theorem c1_fallback_flags_not_recomputed_cex :
    exIsOk (NemoProvidersConfigSchema_parse rawConfigA) = true ∧
    (readAllProviders envProd .unavailable (.obj rawConfigA)).defaultProviderId = "a" ∧
    ((readAllProviders envProd .unavailable (.obj rawConfigA)).providers.filter
        (fun p => p.isDefault)).length = 0 :=
  ⟨rfl, rfl, rfl⟩

/-- Claim C1 (amended): `isDefault` flags are recomputed as
`id === defaultProviderId` only when the configuration is obtained through
the primary structured preference API; through the fallback key-value store
the persisted flags are returned unchanged.  (Exactly one provider is
default after the primary path only when `defaultProviderId` matches exactly
one provider id.) -/
theorem c1_isDefault_normalization_amended (raw : RawNemoProvidersConfig)
    (store : LocalStore) (cfg cfg' : NemoProvidersConfig)
    (h1 : readProvidersConfig (.value (some raw)) store = some cfg)
    (h2 : readProvidersConfig .unavailable (.obj raw) = some cfg') :
    (∀ p ∈ cfg.providers, p.isDefault = (p.id == cfg.defaultProviderId)) ∧
    cfg'.providers.map (fun p => p.isDefault)
      = raw.providers.map (fun r => r.isDefault) := by
  constructor
  · simp only [readProvidersConfig] at h1
    cases hp : NemoProvidersConfigSchema_parse raw with
    | error e =>
      simp only [hp] at h1
      exact Option.noConfusion h1
    | ok config =>
      simp only [hp, Option.some.injEq] at h1
      subst h1
      intro p hp2
      simp only [List.mem_map] at hp2
      obtain ⟨q, _, rfl⟩ := hp2
      rfl
  · simp only [readProvidersConfig] at h2
    cases hp : NemoProvidersConfigSchema_parse raw with
    | error e =>
      simp only [hp, Except.toOption] at h2
      exact Option.noConfusion h2
    | ok config =>
      simp only [hp, Except.toOption, Option.some.injEq] at h2
      subst h2
      exact parseProvidersList_preserves_isDefault raw.providers config.providers
        (configParse_ok_providers raw config hp).1

/-- Claim C1 witness: the amended theorem applied to `rawConfigA`, whose
primary-path result is the normalized `cfgA_norm` and whose fallback-path
result is the as-persisted `cfgA`. -/
theorem c1_isDefault_normalization_witness :
    readProvidersConfig (.value (some rawConfigA)) .empty = some cfgA_norm ∧
    readProvidersConfig .unavailable (.obj rawConfigA) = some cfgA ∧
    ((∀ p ∈ cfgA_norm.providers, p.isDefault = (p.id == cfgA_norm.defaultProviderId)) ∧
     cfgA.providers.map (fun p => p.isDefault)
       = rawConfigA.providers.map (fun r => r.isDefault)) :=
  ⟨rfl, rfl,
   c1_isDefault_normalization_amended rawConfigA .empty cfgA_norm cfgA rfl rfl⟩

/-- Claim C2 (counterexample): in development mode with
`MOCK_PROVIDER_TYPE=openai`, an empty/absent store makes the read return the
mock OpenAI provider — `isBuiltIn = false` with an `apiKey` present — so the
unconditional "empty store yields `isBuiltIn = true` and no credentials"
fails. -/
theorem c2_dev_mode_mock_cex :
    (read envDevOpenAI st0 .unavailable .empty).isBuiltIn = false ∧
    (read envDevOpenAI st0 .unavailable .empty).apiKey = some "mock-key" :=
  ⟨rfl, rfl⟩

/-- Claim C2 (amended): outside development mode, `read()` absorbs every
failure along the read path — absent capability with empty fallback store,
malformed JSON in the fallback store, host error, missing preference value,
malformed JSON in the preference value, schema-validation failure — and
returns the built-in default provider, which has `isBuiltIn = true` and no
credentials.  (`read` is total in the model: no exception crosses its
boundary.) -/
theorem c2_read_absorbs_failures_amended (env : Env) (st : ReaderState)
    (store : LocalStore) (raw : RawNemoProvidersConfig) (e : String)
    (hdev : env.isMockLLMSettings = false)
    (hbad : NemoProvidersConfigSchema_parse raw = .error e) :
    read env st .unavailable .empty = getDefaultNemoProvider env ∧
    read env st .unavailable (.str none) = getDefaultNemoProvider env ∧
    read env st .hostError store = getDefaultNemoProvider env ∧
    read env st .noValue store = getDefaultNemoProvider env ∧
    read env st (.value none) store = getDefaultNemoProvider env ∧
    read env st (.value (some raw)) store = getDefaultNemoProvider env ∧
    read env st .unavailable (.str (some raw)) = getDefaultNemoProvider env ∧
    (getDefaultNemoProvider env).isBuiltIn = true ∧
    (getDefaultNemoProvider env).apiKey = none ∧
    (getDefaultNemoProvider env).baseUrl = none := by
  refine ⟨?_, ?_, rfl, rfl, rfl, ?_, ?_, rfl, rfl, rfl⟩
  · simp [LLMSettingsReader.read, LLMSettingsReader.readFromNemo, hdev]
  · simp [LLMSettingsReader.read, LLMSettingsReader.readFromNemo, hdev]
  · simp [LLMSettingsReader.read, LLMSettingsReader.readFromNemo, hbad]
  · simp [LLMSettingsReader.read, LLMSettingsReader.readFromNemo, hdev, hbad]

/-- Claim C2 witness: the amended theorem applied in production mode to the
schema-invalid `rawConfigBad`. -/
theorem c2_read_absorbs_failures_witness :
    envProd.isMockLLMSettings = false ∧
    NemoProvidersConfigSchema_parse rawConfigBad = .error "Invalid enum value" ∧
    read envProd st0 .unavailable .empty = getDefaultNemoProvider envProd :=
  ⟨rfl, rfl,
   (c2_read_absorbs_failures_amended envProd st0 .empty rawConfigBad
      "Invalid enum value" rfl rfl).1⟩

/-- Claim C3 (counterexample): with the primary capability present but
reporting a host internal error, the fallback store is **not** attempted —
the very configuration the fallback path would resolve to a provider yields
not-found instead. -/
theorem c3_host_error_no_fallback_cex :
    NemoProvidersConfigSchema_parse rawConfigA = .ok cfgA ∧
    readFromNemo envProd st0 .unavailable (.obj rawConfigA) = some providerA ∧
    readFromNemo envProd st0 .hostError (.obj rawConfigA) = none ∧
    readProvidersConfig .hostError (.obj rawConfigA) = none :=
  ⟨rfl, rfl, rfl, rfl⟩

/-- Claim C3 (amended): the sources are tried with the primary structured
preference API first, and the fallback key-value store is attempted only
when the primary capability is absent; a host internal error yields
not-found directly, whatever the fallback store holds.  With the capability
absent a valid stored configuration is returned from the fallback, and with
both sources empty the result is not-found. -/
theorem c3_fallback_order_amended (env : Env) (st : ReaderState)
    (store : LocalStore) (raw : RawNemoProvidersConfig)
    (cfg : NemoProvidersConfig)
    (h : NemoProvidersConfigSchema_parse raw = .ok cfg) :
    readFromNemo env st .hostError store = none ∧
    readProvidersConfig .hostError store = none ∧
    readProvidersConfig .unavailable (.obj raw) = some cfg ∧
    readProvidersConfig .unavailable (.str (some raw)) = some cfg ∧
    readProvidersConfig .unavailable .empty = none := by
  refine ⟨rfl, rfl, ?_, ?_, rfl⟩ <;> simp [readProvidersConfig, h, Except.toOption]

/-- Claim C3 witness: the amended theorem applied to `rawConfigA`. -/
theorem c3_fallback_order_witness :
    NemoProvidersConfigSchema_parse rawConfigA = .ok cfgA ∧
    readProvidersConfig .unavailable (.obj rawConfigA) = some cfgA :=
  ⟨rfl, (c3_fallback_order_amended envProd st0 .empty rawConfigA cfgA rfl).2.2.1⟩

/-- Claim C6 (confirmed): a persisted configuration that validates but whose
`defaultProviderId` matches no provider id makes the default-provider read
return the built-in fallback provider — through the primary API and through
the fallback store alike, with no error surfaced. -/
theorem c6_orphan_default_falls_back (env : Env) (st : ReaderState)
    (store : LocalStore) (raw : RawNemoProvidersConfig)
    (cfg : NemoProvidersConfig)
    (h : NemoProvidersConfigSchema_parse raw = .ok cfg)
    (hid : ∀ p ∈ cfg.providers, p.id ≠ cfg.defaultProviderId) :
    read env st (.value (some raw)) store = getDefaultNemoProvider env ∧
    read env st .unavailable (.obj raw) = getDefaultNemoProvider env ∧
    read env st .unavailable (.str (some raw)) = getDefaultNemoProvider env ∧
    (getDefaultNemoProvider env).isBuiltIn = true := by
  have hfind := find?_id_none cfg.defaultProviderId cfg.providers hid
  have hnorm := find?_norm_none cfg.defaultProviderId cfg.providers hid
  refine ⟨?_, ?_, ?_, rfl⟩
  · simp [LLMSettingsReader.read, LLMSettingsReader.readFromNemo, h, hnorm]
  · simp [LLMSettingsReader.read, LLMSettingsReader.readFromNemo, h, hfind]
  · simp [LLMSettingsReader.read, LLMSettingsReader.readFromNemo, h, hfind]

/-- Claim C6 witness: the theorem applied to `rawConfigOrphan`, whose
`defaultProviderId` `"zzz"` matches no provider. -/
theorem c6_orphan_default_falls_back_witness :
    NemoProvidersConfigSchema_parse rawConfigOrphan = .ok cfgOrphan ∧
    (∀ p ∈ cfgOrphan.providers, p.id ≠ cfgOrphan.defaultProviderId) ∧
    read envProd st0 (.value (some rawConfigOrphan)) .empty
      = getDefaultNemoProvider envProd :=
  ⟨rfl, by decide,
   (c6_orphan_default_falls_back envProd st0 .empty rawConfigOrphan cfgOrphan
      rfl (by decide)).1⟩

/-- Claim C7 (confirmed): outside development mode, `setMockProvider` leaves
the stored mock override unchanged — the call is a no-op apart from its
diagnostic log — so subsequent reads and the mock factory behave exactly as
if the call had not happened. -/
theorem c7_setMockProvider_prod_noop (env : Env) (st : ReaderState)
    (p : NemoProviderPatch) (pref : NemoPref) (store : LocalStore)
    (hdev : env.isMockLLMSettings = false) :
    setMockProvider env st p = st ∧
    read env (setMockProvider env st p) pref store = read env st pref store ∧
    getMockProvider env (setMockProvider env st p) = getMockProvider env st := by
  have h1 : setMockProvider env st p = st := by
    simp [LLMSettingsReader.setMockProvider, hdev]
  exact ⟨h1, by rw [h1], by rw [h1]⟩

/-- Claim C7 witness: the theorem applied in production mode to `testPatch`. -/
theorem c7_setMockProvider_prod_noop_witness :
    envProd.isMockLLMSettings = false ∧
    setMockProvider envProd st0 testPatch = st0 :=
  ⟨rfl, (c7_setMockProvider_prod_noop envProd st0 testPatch .noValue .empty rfl).1⟩

/-- Claim C8 (counterexample): in development mode, after
`setMockProvider({name: "Test", type: "openai"})` the override is stored,
yet a subsequent read issued while the primary capability is present (with
an empty preference) returns the built-in "Nemo" provider, not the mock —
so not every subsequent `readDefaultProvider()` returns the `"Test"`
provider. -/
theorem c8_mock_not_always_returned_cex :
    stTest.mockProvider.map (fun p => p.name) = some "Test" ∧
    (read envDev stTest .noValue .empty).name = "Nemo" ∧
    (read envDev stTest .noValue .empty).name ≠ "Test" :=
  ⟨rfl, rfl, by decide⟩

/-- Claim C8 (amended): in development mode, after
`setMockProvider({name: "Test", type: "openai"})`, a read that reaches the
mock path — primary capability absent and the fallback store empty or
unreadable — returns the override merged over the built-in default
(`name = "Test"`, `type = openai`, every unspecified field from the
default); reads that go through a present primary capability are unaffected
by the override. -/
theorem c8_mock_merged_over_default_amended (env : Env) (st : ReaderState)
    (hdev : env.isMockLLMSettings = true) :
    read env (setMockProvider env st testPatch) .unavailable .empty
      = { getDefaultNemoProvider env with name := "Test", type := .openai } ∧
    read env (setMockProvider env st testPatch) .unavailable (.str none)
      = { getDefaultNemoProvider env with name := "Test", type := .openai } := by
  constructor <;>
    simp [LLMSettingsReader.read, LLMSettingsReader.readFromNemo,
      LLMSettingsReader.setMockProvider, LLMSettingsReader.getMockProvider,
      LLMSettingsReader.getMockProviderValue,
      LLMSettingsReader.spreadMerge, testPatch, hdev]

/-- Claim C8 witness: the amended theorem applied in the development
environment from the fresh state. -/
theorem c8_mock_merged_over_default_witness :
    envDev.isMockLLMSettings = true ∧
    read envDev (setMockProvider envDev st0 testPatch) .unavailable .empty
      = { getDefaultNemoProvider envDev with name := "Test", type := .openai } :=
  ⟨rfl, (c8_mock_merged_over_default_amended envDev st0 rfl).1⟩

/-- Claim C9 (counterexample): a persisted configuration whose two providers
share the id `"a"` passes `NemoProvidersConfigSchema` validation — the
Validator does not flag duplicate ids as malformed. -/
theorem c9_duplicate_ids_validate_cex :
    rawConfigDup.providers.map (fun r => r.id) = ["a", "a"] ∧
    exIsOk (NemoProvidersConfigSchema_parse rawConfigDup) = true :=
  ⟨rfl, rfl⟩

/-- Claim C9 (amended): the Validator checks provider entries only
elementwise — configuration validation succeeds exactly when every provider
entry individually satisfies the provider schema — so a collection with
duplicate provider ids is not flagged as malformed. -/
theorem c9_validation_elementwise_amended (d : String)
    (rs : List RawNemoProvider) :
    exIsOk (NemoProvidersConfigSchema_parse
        { defaultProviderId := d, providers := rs })
      = rs.all (fun r => exIsOk (NemoProviderSchema_parse r)) := by
  rw [← parseProvidersList_isOk]
  unfold NemoProvidersConfigSchema_parse
  split
  · rename_i e he
    rw [show parseProvidersList rs = Except.error e from he]
    rfl
  · rename_i ps hps
    rw [show parseProvidersList rs = Except.ok ps from hps]
    rfl

/-- Claim C10 (counterexample): with no override and
`MOCK_PROVIDER_TYPE='toString'` — a value that is not one of the catalog
keys — the object-literal lookup finds the truthy
`Object.prototype.toString` member, the `||` fallback does not fire, and
the factory returns that non-provider value instead of the built-in
default provider. -/
theorem c10_proto_property_leak_cex :
    st0.mockProvider = none ∧
    ("toString" : String)
      ∉ (["nemo", "openai", "anthropic", "gemini", "ollama"] : List String) ∧
    getMockProviderValue envToString st0 = .protoProperty "toString" ∧
    getMockProviderValue envToString st0
      ≠ .value (getDefaultNemoProvider envToString) :=
  ⟨rfl, by decide, rfl, by decide⟩

/-- Claim C10 (amended): with no process-wide override, a
`MOCK_PROVIDER_TYPE` that is unset, or is neither a catalog key (`nemo`,
`openai`, `anthropic`, `gemini`, `ollama`) nor the name of an
`Object.prototype` property, makes the mock factory return the built-in
default provider; a hint naming an `Object.prototype` property instead
leaks that truthy inherited non-provider member.  The enumeration member
`google_gemini` is not a catalog key (the catalog uses `gemini`) and not a
prototype property, so it yields the built-in default, not the Gemini
mock. -/
theorem c10_mock_unknown_type_defaults (env : Env) (st : ReaderState)
    (t : String)
    (h1 : st.mockProvider = none)
    (h2 : env.MOCK_PROVIDER_TYPE = some t)
    (h3 : t ∉ (["nemo", "openai", "anthropic", "gemini", "ollama"] : List String))
    (h4 : t ∉ objectProtoKeys) :
    getMockProviderValue env st = .value (getDefaultNemoProvider env) ∧
    (∀ env' st', st'.mockProvider = none → env'.MOCK_PROVIDER_TYPE = none →
      getMockProviderValue env' st' = .value (getDefaultNemoProvider env')) ∧
    (∀ env' st' u, st'.mockProvider = none → env'.MOCK_PROVIDER_TYPE = some u →
      u ∈ objectProtoKeys →
      getMockProviderValue env' st' = .protoProperty u) ∧
    ("google_gemini" : String)
      ∉ (["nemo", "openai", "anthropic", "gemini", "ollama"] : List String) ∧
    ("google_gemini" : String) ∉ objectProtoKeys := by
  refine ⟨?_, ?_, ?_, by decide, by decide⟩
  · simp only [List.mem_cons, List.mem_singleton, not_or] at h3
    obtain ⟨hn, ho, ha, hg, hl⟩ := h3
    simp only [LLMSettingsReader.getMockProviderValue,
      LLMSettingsReader.mockProvidersGet, h1, h2, jsOrElse]
    by_cases he : t = ""
    · simp [he]
    · simp [he, hn, ho, ha, hg, hl, h4]
  · intro env' st' h1' h2'
    simp [LLMSettingsReader.getMockProviderValue,
      LLMSettingsReader.mockProvidersGet, h1', h2', jsOrElse]
  · intro env' st' u h1' h2' hu
    have hne : u ≠ "" := by
      intro he
      rw [he] at hu
      exact absurd hu (by decide)
    have huk : u ≠ "nemo" ∧ u ≠ "openai" ∧ u ≠ "anthropic" ∧
        u ≠ "gemini" ∧ u ≠ "ollama" := by
      refine ⟨?_, ?_, ?_, ?_, ?_⟩ <;>
        · intro he
          rw [he] at hu
          exact absurd hu (by decide)
    obtain ⟨hn, ho, ha, hg, hl⟩ := huk
    simp [LLMSettingsReader.getMockProviderValue,
      LLMSettingsReader.mockProvidersGet, h1', h2', jsOrElse,
      hne, hn, ho, ha, hg, hl, hu]

/-- Claim C10 witness: the amended theorem applied with
`MOCK_PROVIDER_TYPE=google_gemini` and no override set. -/
theorem c10_mock_unknown_type_defaults_witness :
    st0.mockProvider = none ∧
    envGG.MOCK_PROVIDER_TYPE = some "google_gemini" ∧
    ("google_gemini" : String)
      ∉ (["nemo", "openai", "anthropic", "gemini", "ollama"] : List String) ∧
    ("google_gemini" : String) ∉ objectProtoKeys ∧
    getMockProviderValue envGG st0
      = .value (getDefaultNemoProvider envGG) :=
  ⟨rfl, rfl, by decide, by decide,
   (c10_mock_unknown_type_defaults envGG st0 "google_gemini" rfl rfl
      (by decide) (by decide)).1⟩
